import Mathlib

/-!
# Camera-calibration settings of `morf/foosball`

A shallow embedding of `src/calib/cameraCalibration.cpp` (the `Settings` record, its
validation, its (de)serialisation and its image-list iteration, the board corners and the
reprojection errors of `CameraCalibration`) and of `demo/aruco/main.cpp`
(`parseConfiguration`), with theorems about them.

Conventions of the embedding

* C++ `int` fields are `Int`; the one narrowing cast of the code, `(int)imageList.size()`,
  is written out as a wrap into the 32-bit signed range; `size_t` arithmetic is reduced
  modulo `2^64`.
* A C++ `float` is a `FloatVal`: a finite rational, an infinity or a NaN.  Every value a
  `float` can hold is one of these, and the comparisons the code makes are defined on all
  of them.
* `std::string` is `String`, inspected through its list of characters.  The patterns the
  code searches for are ASCII, so searching characters and searching bytes agree.
* The file system, the camera and the OpenCV file storage are an explicit environment.
-/

namespace calibration

/-! ## Values -/

/-- Value of a C++ `float`: a finite number, an infinity, or a NaN. -/
inductive FloatVal where
  | finite (q : ℚ)
  | posInf
  | negInf
  | nan
  deriving DecidableEq

/-- The `double` literal `10e-6` of the source, exactly: `0x3EE4F8B588E368F1`, that is
`5902958103587057 / 2^69`, the double nearest to one hundred-thousandth. -/
def tenMicro : ℚ :=
  Rat.mk' 5902958103587057 590295810358705651712 (by decide) (by norm_num)

/-- Comparison `x <= c` of a float with a finite constant, as IEEE defines it: false on
NaN, true on minus infinity, false on plus infinity. -/
def FloatVal.leConst (x : FloatVal) (c : ℚ) : Bool :=
  match x with
  | .finite q => decide (q ≤ c)
  | .posInf => false
  | .negInf => true
  | .nan => false

/-- Conversion of a float to `bool`, as in `if (aspectRatio)`: every value but zero is
true (NaN and the infinities included). -/
def FloatVal.toBool (x : FloatVal) : Bool :=
  match x with
  | .finite q => decide (q ≠ 0)
  | _ => true

/-- Width and height of `cv::Size`. -/
structure Size where
  width : Int
  height : Int
  deriving DecidableEq

/-- Enumeration `Settings::Pattern`. -/
inductive Pattern where
  | NOT_EXISTING
  | CHESSBOARD
  | CIRCLES_GRID
  | ASYMMETRIC_CIRCLES_GRID
  deriving DecidableEq

/-- Enumeration `Settings::InputType`. -/
inductive InputType where
  | INVALID
  | CAMERA
  | VIDEO_FILE
  | IMAGE_LIST
  deriving DecidableEq

/-- The `Settings` record.  Its declaration (`calib/cameraCalibration.hpp`) is not among
the sources; the fields and their types are those the member functions of
`cameraCalibration.cpp` use.  `inputCaptureOpened` stands for
`inputCapture.isOpened()`. -/
structure Settings where
  boardSize : Size
  calibrationPattern : Pattern
  squareSize : FloatVal
  nrFrames : Int
  aspectRatio : FloatVal
  delay : Int
  skip : Int
  writePoints : Bool
  writeExtrinsics : Bool
  calibZeroTangentDist : Bool
  calibFixPrincipalPoint : Bool
  flipVertical : Bool
  outputFileName : String
  showUndistorsed : Bool
  input : String
  useFisheye : Bool
  fixK1 : Bool
  fixK2 : Bool
  fixK3 : Bool
  fixK4 : Bool
  fixK5 : Bool
  cameraID : Int
  imageList : List String
  atImageList : Nat
  inputCaptureOpened : Bool
  inputType : InputType
  goodInput : Bool
  flag : Nat
  patternToUse : String
  deriving DecidableEq

/-! ## Environment -/

/-- What `cv::FileStorage fs(filename, READ)` finds: a file that cannot be opened, a file
whose first top-level node is a sequence of strings, or a file whose first top-level node
is something else. -/
inductive StoredFile where
  | notOpened
  | seq (items : List String)
  | other
  deriving DecidableEq

/-- The world around `Settings::validate`: the files `cv::FileStorage` can read and what
`cv::VideoCapture::open` answers for a camera index and for a file name. -/
structure Env where
  storage : String → StoredFile
  openCamera : Int → Bool
  openFile : String → Bool

/-! ## Constants of the OpenCV headers -/

/-- Modelled from the spec: the enumerators of `cv::` named by `Settings::validate` are
declared in OpenCV's `calib3d.hpp`, which is not among the sources; these are the values
that header gives them. -/
def CALIB_USE_INTRINSIC_GUESS : Nat := 0x00001
/-- Modelled from the spec: value of the `cv::` enumerator in OpenCV's `calib3d.hpp`. -/
def CALIB_FIX_ASPECT_RATIO : Nat := 0x00002
/-- Modelled from the spec: value of the `cv::` enumerator in OpenCV's `calib3d.hpp`. -/
def CALIB_FIX_PRINCIPAL_POINT : Nat := 0x00004
/-- Modelled from the spec: value of the `cv::` enumerator in OpenCV's `calib3d.hpp`. -/
def CALIB_ZERO_TANGENT_DIST : Nat := 0x00008
/-- Modelled from the spec: value of the `cv::` enumerator in OpenCV's `calib3d.hpp`. -/
def CALIB_FIX_K1 : Nat := 0x00020
/-- Modelled from the spec: value of the `cv::` enumerator in OpenCV's `calib3d.hpp`. -/
def CALIB_FIX_K2 : Nat := 0x00040
/-- Modelled from the spec: value of the `cv::` enumerator in OpenCV's `calib3d.hpp`. -/
def CALIB_FIX_K3 : Nat := 0x00080
/-- Modelled from the spec: value of the `cv::` enumerator in OpenCV's `calib3d.hpp`. -/
def CALIB_FIX_K4 : Nat := 0x00800
/-- Modelled from the spec: value of the `cv::` enumerator in OpenCV's `calib3d.hpp`. -/
def CALIB_FIX_K5 : Nat := 0x01000

/-- Modelled from the spec: the enumerators of `cv::fisheye::` named by
`Settings::validate` are declared in OpenCV's `calib3d.hpp`, which is not among the
sources; these are the values that header gives them (`1 << 1`, `1 << 3`, ...). -/
def fisheye_CALIB_RECOMPUTE_EXTRINSIC : Nat := 2
/-- Modelled from the spec: value of the `cv::fisheye::` enumerator in OpenCV's
`calib3d.hpp`. -/
def fisheye_CALIB_FIX_SKEW : Nat := 8
/-- Modelled from the spec: value of the `cv::fisheye::` enumerator in OpenCV's
`calib3d.hpp`. -/
def fisheye_CALIB_FIX_K1 : Nat := 16
/-- Modelled from the spec: value of the `cv::fisheye::` enumerator in OpenCV's
`calib3d.hpp`. -/
def fisheye_CALIB_FIX_K2 : Nat := 32
/-- Modelled from the spec: value of the `cv::fisheye::` enumerator in OpenCV's
`calib3d.hpp`. -/
def fisheye_CALIB_FIX_K3 : Nat := 64
/-- Modelled from the spec: value of the `cv::fisheye::` enumerator in OpenCV's
`calib3d.hpp`. -/
def fisheye_CALIB_FIX_K4 : Nat := 128
/-- Modelled from the spec: value of the `cv::fisheye::` enumerator in OpenCV's
`calib3d.hpp`. -/
def fisheye_CALIB_FIX_PRINCIPAL_POINT : Nat := 512

/-- `INT_MAX` of a 32-bit `int`. -/
def INT_MAX : Int := 2147483647

/-! ## Helpers of `Settings::validate` -/

/-- `std::string::find(needle)` on the characters of a string: the first position at which
`needle` occurs, `none` for `npos`. -/
def find : List Char → List Char → Option Nat
  | [], needle => if needle.isEmpty then some 0 else none
  | c :: cs, needle =>
    if needle.isPrefixOf (c :: cs) then some 0 else (find cs needle).map (· + 1)

/-- `Settings::isListOfImages` (lines 182-191): false exactly when none of `.xml`, `.yaml`
and `.yml` occurs in the file name. -/
def Settings.isListOfImages (filename : String) : Bool :=
  let s := filename.data
  if find s ".xml".data = none ∧ find s ".yaml".data = none ∧ find s ".yml".data = none then
    false
  else
    true

/-- `Settings::readStringList` (lines 167-180): the list is cleared first; the answer is
false when the storage cannot be opened or its first node is no sequence, otherwise the
items are appended and the answer is true.  Returns the answer and the new list. -/
def Settings.readStringList (env : Env) (filename : String) (_l : List String) :
    Bool × List String :=
  match env.storage filename with
  | .notOpened => (false, [])
  | .other => (false, [])
  | .seq items => (true, [] ++ items)

/-- Whether a character is one of `'0'..'9'`, the test of line 84. -/
def isDigit (c : Char) : Bool := decide ('0' ≤ c) && decide (c ≤ '9')

/-- The leading run of decimal digits of a character list. -/
def leadingDigits : List Char → List Char
  | [] => []
  | c :: cs => if isDigit c then c :: leadingDigits cs else []

/-- The natural number a list of decimal digits denotes. -/
def decimalValue (ds : List Char) : Nat :=
  ds.foldl (fun acc c => 10 * acc + (c.toNat - '0'.toNat)) 0

/-- Extraction `ss >> cameraID` from a stream over a string that starts with a digit (the
only use, lines 86-87): the digits are read up to the first other character; a value that
an `int` cannot hold is stored as `INT_MAX` (C++11 `num_get`). -/
def streamReadInt (cs : List Char) : Int :=
  let v : Int := decimalValue (leadingDigits cs)
  if v ≤ INT_MAX then v else INT_MAX

/-- The cast `(int)n` of a `size_t` to a 32-bit `int`: reduction modulo `2^32` into
the signed range. -/
def toInt32 (n : Nat) : Int :=
  let m := n % 4294967296
  if m < 2147483648 then (m : Int) else (m : Int) - 4294967296

/-- What `std::invalid_argument` `Settings::validate` throws, with the values its message
is built from. -/
inductive InvalidArgument where
  | boardSize (width height : Int)
  | squareSize (squareSize : FloatVal)
  | nrFrames (nrFrames : Int)
  deriving DecidableEq

/-- Lines 84-99 of `Settings::validate`, for a non-empty `input` whose first character
is `c`: a camera index, a list of images, or a video file. -/
def Settings.inferInput (env : Env) (s : Settings) (c : Char) : Settings :=
  if isDigit c then
    { s with cameraID := streamReadInt s.input.data, inputType := .CAMERA }
  else if Settings.isListOfImages s.input then
    match Settings.readStringList env s.input s.imageList with
    | (true, l) =>
      { s with
        imageList := l
        inputType := .IMAGE_LIST
        nrFrames := if s.nrFrames < toInt32 l.length then s.nrFrames else toInt32 l.length }
    | (false, l) => { s with imageList := l, inputType := .VIDEO_FILE }
  else
    { s with inputType := .VIDEO_FILE }

/-- Lines 100-105 of `Settings::validate`: the camera or the video file is opened. -/
def Settings.openInput (env : Env) (s : Settings) : Settings :=
  if s.inputType = .CAMERA then
    { s with inputCaptureOpened := env.openCamera s.cameraID }
  else if s.inputType = .VIDEO_FILE then
    { s with inputCaptureOpened := env.openFile s.input }
  else if s.inputType ≠ .IMAGE_LIST ∧ ¬ s.inputCaptureOpened then
    { s with inputType := .INVALID }
  else
    s

/-- Lines 80-106 of `Settings::validate`: the input type is inferred from `input`, the
camera or the video file is opened. -/
def Settings.validateInput (env : Env) (s : Settings) : Settings :=
  match s.input.data with
  | [] => { s with inputType := .INVALID }
  | c :: _ => Settings.openInput env (Settings.inferInput env s c)

/-- Lines 119-138 of `Settings::validate`: the calibration flag. -/
def Settings.computeFlag (s : Settings) : Nat :=
  let flag := 0
  let flag := if s.calibFixPrincipalPoint then flag ||| CALIB_FIX_PRINCIPAL_POINT else flag
  let flag := if s.calibZeroTangentDist then flag ||| CALIB_ZERO_TANGENT_DIST else flag
  let flag := if s.aspectRatio.toBool then flag ||| CALIB_FIX_ASPECT_RATIO else flag
  let flag := if s.fixK1 then flag ||| CALIB_FIX_K1 else flag
  let flag := if s.fixK2 then flag ||| CALIB_FIX_K2 else flag
  let flag := if s.fixK3 then flag ||| CALIB_FIX_K3 else flag
  let flag := if s.fixK4 then flag ||| CALIB_FIX_K4 else flag
  let flag := if s.fixK5 then flag ||| CALIB_FIX_K5 else flag
  if s.useFisheye then
    let flag := fisheye_CALIB_FIX_SKEW ||| fisheye_CALIB_RECOMPUTE_EXTRINSIC
    let flag := if s.fixK1 then flag ||| fisheye_CALIB_FIX_K1 else flag
    let flag := if s.fixK2 then flag ||| fisheye_CALIB_FIX_K2 else flag
    let flag := if s.fixK3 then flag ||| fisheye_CALIB_FIX_K3 else flag
    let flag := if s.fixK4 then flag ||| fisheye_CALIB_FIX_K4 else flag
    let flag :=
      if s.calibFixPrincipalPoint then flag ||| fisheye_CALIB_FIX_PRINCIPAL_POINT else flag
    flag
  else
    flag

/-- Lines 140-143 of `Settings::validate`: the pattern named by `patternToUse`. -/
def Settings.computePattern (s : Settings) : Pattern :=
  let p := Pattern.NOT_EXISTING
  let p := if s.patternToUse = "CHESSBOARD" then Pattern.CHESSBOARD else p
  let p := if s.patternToUse = "CIRCLES_GRID" then Pattern.CIRCLES_GRID else p
  let p :=
    if s.patternToUse = "ASYMMETRIC_CIRCLES_GRID" then Pattern.ASYMMETRIC_CIRCLES_GRID else p
  p

/-- Lines 107-111 of `Settings::validate`: an invalid input type clears `goodInput`. -/
def Settings.checkInputType (s : Settings) : Settings :=
  if s.inputType = .INVALID then { s with goodInput := false } else s

/-- Lines 113-117 of `Settings::validate`: a skip that is not positive clears
`goodInput`. -/
def Settings.checkSkip (s : Settings) : Settings :=
  if s.skip ≤ 0 then { s with goodInput := false } else s

/-- Lines 119-138 of `Settings::validate`: the flag is stored. -/
def Settings.setFlag (s : Settings) : Settings :=
  { s with flag := Settings.computeFlag s }

/-- Lines 140-148 of `Settings::validate`: the pattern is stored, an unknown pattern
clears `goodInput`. -/
def Settings.setPattern (s : Settings) : Settings :=
  let p := Settings.computePattern s
  if p = .NOT_EXISTING then
    { s with calibrationPattern := p, goodInput := false }
  else
    { s with calibrationPattern := p }

/-- Lines 80-149 of `Settings::validate`, the part after the three range checks. -/
def Settings.validateRest (env : Env) (s : Settings) : Settings :=
  let s := Settings.validateInput env s
  let s := Settings.checkInputType s
  let s := Settings.checkSkip s
  let s := Settings.setFlag s
  let s := Settings.setPattern s
  { s with atImageList := 0 }

/-- `Settings::validate` (lines 58-150).  An exception is `Except.error`; otherwise the
record as the function leaves it. -/
def Settings.validate (env : Env) (s : Settings) : Except InvalidArgument Settings :=
  let s := { s with goodInput := true }
  if s.boardSize.width ≤ 0 ∨ s.boardSize.height ≤ 0 then
    .error (.boardSize s.boardSize.width s.boardSize.height)
  else if s.squareSize.leConst tenMicro then
    .error (.squareSize s.squareSize)
  else if s.nrFrames ≤ 0 then
    .error (.nrFrames s.nrFrames)
  else
    .ok (Settings.validateRest env s)

/-- The fields that lines 80-106 of `Settings::validate` leave as they are. -/
def Settings.sameConfig (t s : Settings) : Prop :=
  t.skip = s.skip ∧ t.patternToUse = s.patternToUse ∧
  t.calibFixPrincipalPoint = s.calibFixPrincipalPoint ∧
  t.calibZeroTangentDist = s.calibZeroTangentDist ∧ t.aspectRatio = s.aspectRatio ∧
  t.useFisheye = s.useFisheye ∧ t.fixK1 = s.fixK1 ∧ t.fixK2 = s.fixK2 ∧ t.fixK3 = s.fixK3 ∧
  t.fixK4 = s.fixK4 ∧ t.fixK5 = s.fixK5 ∧ t.input = s.input ∧ t.goodInput = s.goodInput

/-! ## Image acquisition -/

/-- Conversion of an `int` to `size_t`: reduction modulo `2^64`. -/
def toSizeT (i : Int) : Nat := (i % 18446744073709551616).toNat

/-- How a call of `Settings::nextImage` obtains the image it returns: a frame taken from
the opened capture, `cv::imread(imageList[index])` (with `file = none` when `index` is not
an index of the list, where the C++ subscript has no defined behaviour), or the empty
image. -/
inductive ImageRead where
  | captured
  | imread (index : Nat) (file : Option String)
  | empty
  deriving DecidableEq

/-- `Settings::nextImage` (lines 152-165).  `atImageList` is a `size_t` (it is compared
with `imageList.size()` without a cast); `atImageList += skip` is evaluated before the
subscript and yields the new value. -/
def Settings.nextImage (s : Settings) : Settings × ImageRead :=
  if s.inputCaptureOpened then
    (s, .captured)
  else if s.atImageList < s.imageList.length then
    let i := (s.atImageList + toSizeT s.skip) % 18446744073709551616
    ({ s with atImageList := i }, .imread i (s.imageList.get? i))
  else
    (s, .empty)

/-- The reads of `n` successive calls of `Settings::nextImage`, in order. -/
def nextImages : Nat → Settings → List ImageRead
  | 0, _ => []
  | n + 1, s => (Settings.nextImage s).2 :: nextImages n (Settings.nextImage s).1

/-! ## Serialisation -/

/-- Scalar stored under a key of a `cv::FileStorage` mapping. -/
inductive NodeValue where
  | int (i : Int)
  | real (x : FloatVal)
  | str (s : String)
  deriving DecidableEq

/-- Mapping node of a `cv::FileStorage`: keys and their values, in the order written. -/
abbrev FileNode := List (String × NodeValue)

/-- `node[key]`: the value stored under `key`, `none` for the empty node a missing key
gives. -/
def FileNode.get (node : FileNode) (key : String) : Option NodeValue :=
  List.lookup key node

/-- `node >> x` for an `int`: the stored integer; `0` for an empty node.  (Nodes of
another type do not occur under the keys `Settings::write` emits and read as `0` here.) -/
def readInt : Option NodeValue → Int
  | some (.int i) => i
  | _ => 0

/-- `node >> x` for a `bool`: an `int` is read and compared with zero. -/
def readBool (v : Option NodeValue) : Bool := decide (readInt v ≠ 0)

/-- `node >> x` for a `float`: the stored number; `0` for an empty node. -/
def readFloat : Option NodeValue → FloatVal
  | some (.real x) => x
  | some (.int i) => .finite i
  | _ => .finite 0

/-- `node >> x` for a string: the stored string; empty for an empty node. -/
def readString : Option NodeValue → String
  | some (.str s) => s
  | _ => ""

/-- `fs << b` for a `bool`: it is written as the integer `0` or `1`. -/
def boolNode (b : Bool) : NodeValue := .int (if b then 1 else 0)

/-- `Settings::write` (lines 6-29): the mapping it emits. -/
def Settings.write (s : Settings) : FileNode :=
  [ ("BoardSize_Width", .int s.boardSize.width),
    ("BoardSize_Height", .int s.boardSize.height),
    ("Square_Size", .real s.squareSize),
    ("Calibrate_Pattern", .str s.patternToUse),
    ("Calibrate_NrOfFrameToUse", .int s.nrFrames),
    ("Calibrate_FixAspectRatio", .real s.aspectRatio),
    ("Calibrate_AssumeZeroTangentialDistortion", boolNode s.calibZeroTangentDist),
    ("Calibrate_FixPrincipalPointAtTheCenter", boolNode s.calibFixPrincipalPoint),
    ("Write_DetectedFeaturePoints", boolNode s.writePoints),
    ("Write_extrinsicParameters", boolNode s.writeExtrinsics),
    ("Write_outputFileName", .str s.outputFileName),
    ("Show_UndistortedImage", boolNode s.showUndistorsed),
    ("Input_FlipAroundHorizontalAxis", boolNode s.flipVertical),
    ("Input_Delay", .int s.delay),
    ("Input_Skip", .int s.skip),
    ("Input", .str s.input) ]

/-- The assignments of `Settings::read` (lines 33-54), before it validates. -/
def Settings.readFields (s : Settings) (node : FileNode) : Settings :=
  { s with
    boardSize := ⟨readInt (node.get "BoardSize_Width"), readInt (node.get "BoardSize_Height")⟩
    patternToUse := readString (node.get "Calibrate_Pattern")
    squareSize := readFloat (node.get "Square_Size")
    nrFrames := readInt (node.get "Calibrate_NrOfFrameToUse")
    aspectRatio := readFloat (node.get "Calibrate_FixAspectRatio")
    writePoints := readBool (node.get "Write_DetectedFeaturePoints")
    writeExtrinsics := readBool (node.get "Write_extrinsicParameters")
    outputFileName := readString (node.get "Write_outputFileName")
    calibZeroTangentDist := readBool (node.get "Calibrate_AssumeZeroTangentialDistortion")
    calibFixPrincipalPoint := readBool (node.get "Calibrate_FixPrincipalPointAtTheCenter")
    useFisheye := readBool (node.get "Calibrate_UseFisheyeModel")
    flipVertical := readBool (node.get "Input_FlipAroundHorizontalAxis")
    showUndistorsed := readBool (node.get "Show_UndistortedImage")
    input := readString (node.get "Input")
    skip := readInt (node.get "Input_Skip")
    delay := readInt (node.get "Input_Delay")
    fixK1 := readBool (node.get "Fix_K1")
    fixK2 := readBool (node.get "Fix_K2")
    fixK3 := readBool (node.get "Fix_K3")
    fixK4 := readBool (node.get "Fix_K4")
    fixK5 := readBool (node.get "Fix_K5") }

/-- `Settings::read` (lines 31-56) on the record `s`: the fields are assigned from the
node, then the record is validated. -/
def Settings.read (env : Env) (s : Settings) (node : FileNode) :
    Except InvalidArgument Settings :=
  Settings.validate env (Settings.readFields s node)

/-! ## Use of the flag after validation -/

/-- The test `s.flag & cv::CALIB_FIX_ASPECT_RATIO` of `runCalibration` (line 472) and of
`saveCameraParams` (line 547). -/
def fixAspectRatioTest (s : Settings) : Bool :=
  decide (s.flag &&& CALIB_FIX_ASPECT_RATIO ≠ 0)

/-- Entry `(0,0)` of the camera matrix `runCalibration` starts from (lines 471-473): that
of the identity, replaced by `aspectRatio` when the test holds. -/
def initialFocalEntry (s : Settings) : FloatVal :=
  if fixAspectRatioTest s then s.aspectRatio else .finite 1

/-- Whether `saveCameraParams` writes the entry `fix_aspect_ratio` (lines 547-548). -/
def writesFixAspectRatio (s : Settings) : Bool := fixAspectRatioTest s

/-! ## Command line of the demo -/

/-- What `parseConfiguration` looks at in a `cxxopts::ParseResult`: how often each option
was given. -/
structure ParseResult where
  count : String → Nat

/-- A `cxxopts::OptionException`, with its message. -/
structure OptionException where
  what : String

/-- How a call ends: it returns a value, or the process exits with a status. -/
inductive Outcome (α : Type) where
  | returned (a : α)
  | exited (status : Int)

/-- The status `EXIT_FAILURE` of `<cstdlib>`. -/
def EXIT_FAILURE : Int := 1

/-- `parseConfiguration` (`demo/aruco/main.cpp`, lines 14-31).  The argument is what
`options.parse(argc, argv)` does: it returns a result or throws an option exception. -/
def parseConfiguration (parsed : Except OptionException ParseResult) : Outcome ParseResult :=
  match parsed with
  | .ok config =>
    if config.count "input_path" = 0 ∨ config.count "help" ≠ 0 then
      .exited EXIT_FAILURE
    else
      .returned config
  | .error _ => .exited EXIT_FAILURE

/-! ## File names of image lists -/

/-- The words of the specification for `Settings::isListOfImages`, to compare the code
with: the file name ends with the extension `.xml`, `.yaml` or `.yml`. -/
def hasListExtension (filename : String) : Bool :=
  ".xml".data.isSuffixOf filename.data || ".yaml".data.isSuffixOf filename.data ||
    ".yml".data.isSuffixOf filename.data

/-! ## Board corners -/

/-- A `cv::Point3f`, with coordinates in a number type `K`. -/
structure Point3 (K : Type) where
  x : K
  y : K
  z : K
  deriving DecidableEq

/-- The loop `for (int i = 0; i < n; ++i) body(i)` on a state; it does not run for
`n <= 0`. -/
def forLoop {σ : Type} (n : Int) (body : Int → σ → σ) (init : σ) : σ :=
  (List.range n.toNat).foldl (fun st (i : Nat) => body (i : Int) st) init

/-- Result of an `int` computation, brought into the 32-bit two's-complement range. -/
def wrapInt32 (z : Int) : Int := (z + 2147483648) % 4294967296 - 2147483648

/-- `CameraCalibration::calcBoardCornerPositions` (lines 439-462): the vector is cleared,
then filled row by row.  `K` is the arithmetic of `float`: the theorems hold for any
multiplication and any conversion from `int`.  The `int` expression `2*j + i % 2` is
reduced to 32 bits; the loop counters stay below `height` and `width`. -/
def calcBoardCornerPositions {K : Type} [IntCast K] [Mul K] [Zero K]
    (boardSize : Size) (squareSize : K) (_corners : List (Point3 K))
    (patternType : Pattern) : List (Point3 K) :=
  let corners : List (Point3 K) := []
  match patternType with
  | .CHESSBOARD | .CIRCLES_GRID =>
    forLoop boardSize.height (fun i corners =>
      forLoop boardSize.width (fun j corners =>
        corners ++ [⟨(j : K) * squareSize, (i : K) * squareSize, 0⟩]) corners) corners
  | .ASYMMETRIC_CIRCLES_GRID =>
    forLoop boardSize.height (fun i corners =>
      forLoop boardSize.width (fun j corners =>
        corners ++
          [⟨((wrapInt32 (2 * j + i % 2) : Int) : K) * squareSize, (i : K) * squareSize, 0⟩])
        corners) corners
  | .NOT_EXISTING => corners

/-! ## Reprojection errors -/

/-- `std::vector::resize(n)`: the first `n` elements are kept, missing ones are
value-initialised. -/
def resize {α : Type} (l : List α) (n : Nat) (d : α) : List α :=
  l.take n ++ List.replicate (n - l.length) d

/-- The loop of `computeReprojectionErrors` (lines 416-433) from view `i` on.  A view is
given by `err`, the L2 distance `norm(imagePoints[i], imagePoints2)` between its observed
and its reprojected points, and by `n`, its number of points.  The state is `totalErr`,
`totalPoints` and `perViewErrors`. -/
def errorLoop {K : Type} [Add K] [Mul K] [Div K] [NatCast K] (sqrt : K → K) :
    List (K × Nat) → Nat → K × Nat × List K → K × Nat × List K
  | [], _, st => st
  | (err, n) :: rest, i, (totalErr, totalPoints, perViewErrors) =>
    errorLoop sqrt rest (i + 1)
      (totalErr + err * err, totalPoints + n,
        perViewErrors.set i (sqrt (err * err / (n : K))))

/-- `CameraCalibration::computeReprojectionErrors` (lines 404-436) over a number type `K`
with square root `sqrt`, the projection of the points and the norm being taken as given
(see `errorLoop`).  Returns the value returned and `perViewErrors`. -/
def computeReprojectionErrors {K : Type} [Add K] [Mul K] [Div K] [Zero K] [NatCast K]
    (sqrt : K → K) (views : List (K × Nat)) (perViewErrors : List K) : K × List K :=
  let st := errorLoop sqrt views 0 (0, 0, resize perViewErrors views.length 0)
  (sqrt (st.1 / (st.2.1 : K)), st.2.2)

/-! ## Sample data -/

/-- An environment without files, in which every capture opens. -/
def sampleEnv : Env :=
  { storage := fun _ => .notOpened, openCamera := fun _ => true, openFile := fun _ => true }

/-- An environment in which the file `list.xml` holds an empty sequence. -/
def emptyListEnv : Env :=
  { storage := fun f => if f = "list.xml" then .seq [] else .notOpened
    openCamera := fun _ => true
    openFile := fun _ => true }

/-- An environment in which the file `list.xml` names two images. -/
def twoImagesEnv : Env :=
  { storage := fun f => if f = "list.xml" then .seq ["a.png", "b.png"] else .notOpened
    openCamera := fun _ => true
    openFile := fun _ => true }

/-- An environment in which the file `list.xml` names one image. -/
def oneImageEnv : Env :=
  { storage := fun f => if f = "list.xml" then .seq ["a.png"] else .notOpened
    openCamera := fun _ => true
    openFile := fun _ => true }

/-- A settings record as a configuration file gives it: a 9 by 6 chessboard with squares
of size 50, camera 0 as the input. -/
def sampleSettings : Settings :=
  { boardSize := ⟨9, 6⟩, calibrationPattern := .NOT_EXISTING, squareSize := .finite 50,
    nrFrames := 25, aspectRatio := .finite 1, delay := 100, skip := 1, writePoints := true,
    writeExtrinsics := true, calibZeroTangentDist := true, calibFixPrincipalPoint := true,
    flipVertical := false, outputFileName := "out_camera_data.xml", showUndistorsed := true,
    input := "0", useFisheye := false, fixK1 := false, fixK2 := false, fixK3 := false,
    fixK4 := true, fixK5 := true, cameraID := 0, imageList := [], atImageList := 0,
    inputCaptureOpened := false, inputType := .INVALID, goodInput := false, flag := 0,
    patternToUse := "CHESSBOARD" }

/-! ## Lemmas on `Settings::validate` -/

theorem tenMicro_eq : tenMicro = 5902958103587057 / 2 ^ 69 := by
  rw [tenMicro, Rat.mk'_eq_divInt, Rat.divInt_eq_div]; norm_num

theorem validateInput_sameConfig (env : Env) (s : Settings) :
    Settings.sameConfig (Settings.validateInput env s) s := by
  unfold Settings.validateInput Settings.openInput Settings.inferInput Settings.sameConfig
  repeat' split
  all_goals exact ⟨rfl, rfl, rfl, rfl, rfl, rfl, rfl, rfl, rfl, rfl, rfl, rfl, rfl⟩

theorem computePattern_congr {s t : Settings} (h : t.patternToUse = s.patternToUse) :
    Settings.computePattern t = Settings.computePattern s := by
  simp only [Settings.computePattern, h]

theorem computeFlag_congr {s t : Settings} (h : Settings.sameConfig t s) :
    Settings.computeFlag t = Settings.computeFlag s := by
  obtain ⟨-, -, h1, h2, h3, h4, k1, k2, k3, k4, k5, -, -⟩ := h
  simp only [Settings.computeFlag, h1, h2, h3, h4, k1, k2, k3, k4, k5]

theorem checkInputType_eq (s : Settings) :
    Settings.checkInputType s =
      { s with goodInput := s.goodInput && decide (s.inputType ≠ .INVALID) } := by
  cases s
  simp only [Settings.checkInputType]
  split <;> simp_all

theorem checkSkip_eq (s : Settings) :
    Settings.checkSkip s = { s with goodInput := s.goodInput && decide (0 < s.skip) } := by
  cases s
  simp only [Settings.checkSkip]
  split <;> simp_all

theorem setPattern_eq (s : Settings) :
    Settings.setPattern s =
      { s with
        calibrationPattern := Settings.computePattern s
        goodInput := s.goodInput && decide (Settings.computePattern s ≠ .NOT_EXISTING) } := by
  cases s
  simp only [Settings.setPattern]
  split <;> simp_all

/-- The record `validateRest` returns, field by field. -/
theorem validateRest_eq (env : Env) (s : Settings) :
    Settings.validateRest env s =
      { Settings.validateInput env s with
        flag := Settings.computeFlag s
        calibrationPattern := Settings.computePattern s
        atImageList := 0
        goodInput := s.goodInput &&
          decide ((Settings.validateInput env s).inputType ≠ .INVALID) &&
          decide (0 < s.skip) && decide (Settings.computePattern s ≠ .NOT_EXISTING) } := by
  have hc := validateInput_sameConfig env s
  have hf := computeFlag_congr hc
  have hp := computePattern_congr hc.2.1
  obtain ⟨hk, -, -, -, -, -, -, -, -, -, -, -, hg⟩ := hc
  simp only [Settings.validateRest, checkInputType_eq, checkSkip_eq, setPattern_eq,
    Settings.setFlag]
  generalize Settings.validateInput env s = t at hf hp hk hg
  have e1 : ∀ g a, Settings.computeFlag { t with goodInput := g, flag := a } =
      Settings.computeFlag s := fun g a => by rw [← hf]; rfl
  have e2 : ∀ g a, Settings.computePattern { t with goodInput := g, flag := a } =
      Settings.computePattern s := fun g a => by rw [← hp]; rfl
  simp only [e1, e2]
  simp only [hk, hg]

/-- The range checks of `validate`, as one proposition. -/
theorem validate_eq_ok_iff (env : Env) (s r : Settings) :
    Settings.validate env s = .ok r ↔
      (0 < s.boardSize.width ∧ 0 < s.boardSize.height ∧
        s.squareSize.leConst tenMicro = false ∧ 0 < s.nrFrames) ∧
      r = Settings.validateRest env { s with goodInput := true } := by
  unfold Settings.validate
  by_cases hw : s.boardSize.width ≤ 0
  · simp [hw]
  by_cases hh : s.boardSize.height ≤ 0
  · simp [hw, hh]
  by_cases hs : s.squareSize.leConst tenMicro = true
  · simp [hw, hh, hs]
  by_cases hn : s.nrFrames ≤ 0
  · simp [hw, hh, hs, hn]
  · have hs' : s.squareSize.leConst tenMicro = false := by simpa using hs
    simp only [hw, hh, hs', hn, or_self, if_false, Bool.false_eq_true, Except.ok.injEq]
    constructor
    · intro h
      exact ⟨⟨by omega, by omega, by first | rfl | trivial, by omega⟩, h.symm⟩
    · intro h
      exact h.2.symm

theorem computeFlag_of_ok {env : Env} {s r : Settings} (h : Settings.validate env s = .ok r) :
    r.flag = Settings.computeFlag s := by
  rw [((validate_eq_ok_iff env s r).1 h).2, validateRest_eq]
  rfl

theorem computePattern_of_ok {env : Env} {s r : Settings}
    (h : Settings.validate env s = .ok r) :
    r.calibrationPattern = Settings.computePattern s := by
  rw [((validate_eq_ok_iff env s r).1 h).2, validateRest_eq]
  rfl

theorem validateInput_inputType_invalid_iff (env : Env) (s : Settings) :
    (Settings.validateInput env s).inputType = .INVALID ↔ s.input = "" := by
  rw [String.ext_iff]
  unfold Settings.validateInput
  split
  next h => simp [h]
  next c cs h =>
    have : s.input.data ≠ "".data := by rw [h]; simp
    simp only [this, iff_false]
    unfold Settings.openInput Settings.inferInput
    repeat' split
    all_goals simp_all

theorem goodInput_of_ok {env : Env} {s r : Settings} (h : Settings.validate env s = .ok r) :
    r.goodInput = (decide (s.input ≠ "") && decide (0 < s.skip) &&
      decide (Settings.computePattern s ≠ .NOT_EXISTING)) := by
  rw [((validate_eq_ok_iff env s r).1 h).2, validateRest_eq]
  have := validateInput_inputType_invalid_iff env { s with goodInput := true }
  simp only at this
  simp only [Bool.true_and, ne_eq, this]
  congr 1

/-! ## Range checks and input inference -/

/-- C1: `Settings::validate` throws `std::invalid_argument` exactly when the board width
or height is not positive, or `squareSize <= 10e-6`, or `nrFrames <= 0`; for every other
combination of these four values it returns normally, whatever the other fields and the
environment are. -/
theorem validate_throws_iff (env : Env) (s : Settings) :
    ((∃ e, Settings.validate env s = .error e) ↔
      (s.boardSize.width ≤ 0 ∨ s.boardSize.height ≤ 0 ∨
        s.squareSize.leConst tenMicro = true ∨ s.nrFrames ≤ 0)) ∧
    ((∃ r, Settings.validate env s = .ok r) ↔
      ¬ (s.boardSize.width ≤ 0 ∨ s.boardSize.height ≤ 0 ∨
        s.squareSize.leConst tenMicro = true ∨ s.nrFrames ≤ 0)) := by
  unfold Settings.validate
  by_cases hw : s.boardSize.width ≤ 0
  · simp [hw]
  by_cases hh : s.boardSize.height ≤ 0
  · simp [hh]
  by_cases hs : s.squareSize.leConst tenMicro = true
  · simp [hw, hh, hs]
  by_cases hn : s.nrFrames ≤ 0
  · simp [hw, hh, hs, hn]
  · simp [hw, hh, hs, hn]

theorem computePattern_cases (s : Settings) :
    (s.patternToUse = "CHESSBOARD" → Settings.computePattern s = .CHESSBOARD) ∧
    (s.patternToUse = "CIRCLES_GRID" → Settings.computePattern s = .CIRCLES_GRID) ∧
    (s.patternToUse = "ASYMMETRIC_CIRCLES_GRID" →
      Settings.computePattern s = .ASYMMETRIC_CIRCLES_GRID) ∧
    (¬ (s.patternToUse = "CHESSBOARD" ∨ s.patternToUse = "CIRCLES_GRID" ∨
        s.patternToUse = "ASYMMETRIC_CIRCLES_GRID") →
      Settings.computePattern s = .NOT_EXISTING) := by
  unfold Settings.computePattern
  refine ⟨fun h => ?_, fun h => ?_, fun h => ?_, fun h => ?_⟩
  · rw [h]; decide
  · rw [h]; decide
  · rw [h]; decide
  · simp only [not_or] at h
    simp [h.1, h.2.1, h.2.2]

/-- C2: after a `validate` that returns normally, `goodInput` is true exactly when the
input string is non-empty, `skip > 0` and `patternToUse` is one of the three pattern
names; `calibrationPattern` is the enumerator `patternToUse` names, and `NOT_EXISTING`
when it names none. -/
theorem validate_goodInput_iff (env : Env) (s r : Settings)
    (h : Settings.validate env s = .ok r) :
    (r.goodInput = true ↔
      s.input ≠ "" ∧ 0 < s.skip ∧
        (s.patternToUse = "CHESSBOARD" ∨ s.patternToUse = "CIRCLES_GRID" ∨
          s.patternToUse = "ASYMMETRIC_CIRCLES_GRID")) ∧
    (s.patternToUse = "CHESSBOARD" → r.calibrationPattern = .CHESSBOARD) ∧
    (s.patternToUse = "CIRCLES_GRID" → r.calibrationPattern = .CIRCLES_GRID) ∧
    (s.patternToUse = "ASYMMETRIC_CIRCLES_GRID" →
      r.calibrationPattern = .ASYMMETRIC_CIRCLES_GRID) ∧
    (¬ (s.patternToUse = "CHESSBOARD" ∨ s.patternToUse = "CIRCLES_GRID" ∨
        s.patternToUse = "ASYMMETRIC_CIRCLES_GRID") →
      r.calibrationPattern = .NOT_EXISTING) := by
  obtain ⟨p1, p2, p3, p4⟩ := computePattern_cases s
  rw [goodInput_of_ok h, computePattern_of_ok h]
  refine ⟨?_, p1, p2, p3, p4⟩
  simp only [Bool.and_eq_true, decide_eq_true_eq, and_assoc]
  refine and_congr_right fun _ => and_congr_right fun _ => ?_
  constructor
  · intro hne
    by_contra hn
    exact hne (p4 hn)
  · rintro (h1 | h1 | h1)
    · rw [p1 h1]; decide
    · rw [p2 h1]; decide
    · rw [p3 h1]; decide

/-- Witness of C2: the sample settings validate, with a good input. -/
theorem validate_goodInput_iff_witness :
    Settings.validate sampleEnv sampleSettings =
        .ok (Settings.validateRest sampleEnv { sampleSettings with goodInput := true }) ∧
      (Settings.validateRest sampleEnv { sampleSettings with goodInput := true }).goodInput
        = true :=
  ⟨rfl, (validate_goodInput_iff sampleEnv sampleSettings _ rfl).1.2
    ⟨by decide, by decide, Or.inl rfl⟩⟩


theorem validateInput_digit (env : Env) (s : Settings) (c : Char) (cs : List Char)
    (hd : s.input.data = c :: cs) (hc : isDigit c = true) :
    (Settings.validateInput env s).inputType = .CAMERA ∧
      (Settings.validateInput env s).cameraID = streamReadInt s.input.data := by
  unfold Settings.validateInput
  rw [hd]
  simp [Settings.inferInput, hc, Settings.openInput, hd]

theorem validateInput_other (env : Env) (s : Settings) (c : Char) (cs : List Char)
    (hd : s.input.data = c :: cs) (hc : isDigit c = false) :
    (Settings.validateInput env s).inputType =
      (if Settings.isListOfImages s.input = true ∧
          (Settings.readStringList env s.input s.imageList).1 = true
        then .IMAGE_LIST else .VIDEO_FILE) := by
  unfold Settings.validateInput
  rw [hd]
  simp only [Settings.inferInput, hc, Bool.false_eq_true, if_false]
  by_cases hl : Settings.isListOfImages s.input = true
  · simp only [hl, if_true, true_and]
    rcases hr : Settings.readStringList env s.input s.imageList with ⟨b, l⟩
    cases b <;> simp [Settings.openInput]
  · simp [hl, Settings.openInput]

/-- C3, as amended: for a record that passes the range checks, an empty input gives
`INVALID`; an input that starts with a decimal digit gives `CAMERA`, with `cameraID` the
integer its leading run of digits denotes when that is at most `INT_MAX`, and `INT_MAX`
otherwise; any other input gives `IMAGE_LIST` when `isListOfImages` and `readStringList`
both succeed and `VIDEO_FILE` otherwise. -/
theorem validate_inputType (env : Env) (s r : Settings)
    (h : Settings.validate env s = .ok r) :
    (s.input = "" → r.inputType = .INVALID) ∧
    (∀ c cs, s.input.data = c :: cs → isDigit c = true →
      r.inputType = .CAMERA ∧
      ((decimalValue (leadingDigits s.input.data) : Int) ≤ INT_MAX →
        r.cameraID = decimalValue (leadingDigits s.input.data)) ∧
      (INT_MAX < (decimalValue (leadingDigits s.input.data) : Int) →
        r.cameraID = INT_MAX)) ∧
    (∀ c cs, s.input.data = c :: cs → isDigit c = false →
      r.inputType =
        (if Settings.isListOfImages s.input = true ∧
            (Settings.readStringList env s.input s.imageList).1 = true
          then .IMAGE_LIST else .VIDEO_FILE)) := by
  have hr := ((validate_eq_ok_iff env s r).1 h).2
  rw [validateRest_eq] at hr
  subst hr
  refine ⟨fun he => ?_, fun c cs hd hc => ?_, fun c cs hd hc => ?_⟩
  · exact (validateInput_inputType_invalid_iff env { s with goodInput := true }).2 he
  · obtain ⟨h1, h2⟩ := validateInput_digit env { s with goodInput := true } c cs hd hc
    refine ⟨h1, fun hle => ?_, fun hgt => ?_⟩
    · show (Settings.validateInput env { s with goodInput := true }).cameraID = _
      rw [h2]
      simp only [streamReadInt]
      rw [if_pos hle]
    · show (Settings.validateInput env { s with goodInput := true }).cameraID = _
      rw [h2]
      simp only [streamReadInt]
      rw [if_neg (not_le.2 hgt)]
  · exact validateInput_other env { s with goodInput := true } c cs hd hc

/-- Witness of C3: the sample settings name camera `0`. -/
theorem validate_inputType_witness :
    Settings.validate sampleEnv sampleSettings =
        .ok (Settings.validateRest sampleEnv { sampleSettings with goodInput := true }) ∧
      (Settings.validateRest sampleEnv { sampleSettings with goodInput := true }).inputType
        = .CAMERA :=
  ⟨rfl, ((validate_inputType sampleEnv sampleSettings _ rfl).2.1 '0' [] rfl rfl).1⟩

/-- C3 as stated fails: on the input `99999999999` validation succeeds and infers a
camera, but the stored `cameraID` is `INT_MAX`, not the integer the digits denote. -/
theorem validate_cameraID_overflow :
    ∃ r, Settings.validate sampleEnv { sampleSettings with input := "99999999999" } = .ok r ∧
      r.inputType = .CAMERA ∧ r.cameraID = 2147483647 ∧
      r.cameraID ≠ decimalValue (leadingDigits "99999999999".data) :=
  ⟨_, rfl, by decide, by decide, by decide⟩

/-! ## Number of frames -/

theorem validateInput_nrFrames (env : Env) (s : Settings) :
    ((Settings.validateInput env s).inputType ≠ .IMAGE_LIST →
      (Settings.validateInput env s).nrFrames = s.nrFrames) ∧
    ((Settings.validateInput env s).inputType = .IMAGE_LIST →
      (Settings.validateInput env s).nrFrames =
        min s.nrFrames (toInt32 (Settings.validateInput env s).imageList.length)) := by
  unfold Settings.validateInput Settings.openInput Settings.inferInput
  repeat' split
  all_goals simp_all
  all_goals omega

/-- Outside the case C4 fails on, the number of frames stays positive: after a normal
return of `validate` it is the given one, or, for an image list, the smaller of the given
one and `(int)imageList.size()`. -/
theorem validate_nrFrames (env : Env) (s r : Settings)
    (h : Settings.validate env s = .ok r) :
    (r.inputType ≠ .IMAGE_LIST → r.nrFrames = s.nrFrames ∧ 0 < r.nrFrames) ∧
    (r.inputType = .IMAGE_LIST →
      r.nrFrames = min s.nrFrames (toInt32 r.imageList.length) ∧
      (0 < toInt32 r.imageList.length → 0 < r.nrFrames)) := by
  obtain ⟨⟨-, -, -, hn⟩, hr⟩ := (validate_eq_ok_iff env s r).1 h
  rw [validateRest_eq] at hr
  subst hr
  obtain ⟨h1, h2⟩ := validateInput_nrFrames env { s with goodInput := true }
  refine ⟨fun ht => ?_, fun ht => ?_⟩
  · have := h1 ht
    exact ⟨this, by rw [this]; exact hn⟩
  · have := h2 ht
    refine ⟨this, fun hl => ?_⟩
    rw [this]
    exact lt_min hn hl

/-- C4 fails on an image list that is empty: validation succeeds with a good input of
type `IMAGE_LIST`, and leaves `nrFrames = 0`. -/
theorem validate_emptyList_nrFrames :
    ∃ r, Settings.validate emptyListEnv { sampleSettings with input := "list.xml" } = .ok r ∧
      r.inputType = .IMAGE_LIST ∧ r.goodInput = true ∧ r.imageList = [] ∧ r.nrFrames = 0 :=
  ⟨_, rfl, by decide, by decide, by decide, by decide⟩


/-! ## Serialisation -/

/-- The mapping `Settings::write` emits has no entry for the fisheye model and none for
`Fix_K1` to `Fix_K5`, the keys `Settings::read` also looks up. -/
theorem write_missing_keys (s : Settings) :
    FileNode.get (Settings.write s) "Calibrate_UseFisheyeModel" = none ∧
    FileNode.get (Settings.write s) "Fix_K1" = none ∧
    FileNode.get (Settings.write s) "Fix_K2" = none ∧
    FileNode.get (Settings.write s) "Fix_K3" = none ∧
    FileNode.get (Settings.write s) "Fix_K4" = none ∧
    FileNode.get (Settings.write s) "Fix_K5" = none := by
  refine ⟨?_, ?_, ?_, ?_, ?_, ?_⟩ <;> rfl

/-- C5 fails on a record with the fisheye model and `fixK1` set: `validate` accepts it,
and reading back what `write` emits for it succeeds with both cleared. -/
theorem read_write_drops_fisheye :
    (∃ r, Settings.validate sampleEnv
        { sampleSettings with useFisheye := true, fixK1 := true } = .ok r) ∧
    ∃ r, Settings.read sampleEnv sampleSettings
        (Settings.write { sampleSettings with useFisheye := true, fixK1 := true }) = .ok r ∧
      r.useFisheye = false ∧ r.fixK1 = false :=
  ⟨⟨_, rfl⟩, _, rfl, by decide, by decide⟩

/-! ## Image-list iteration -/

/-- C6 fails on a list of two images with `skip = 1`: the first call of `nextImage` reads
entry 1, the second subscripts the list at 2, past its end, and the third returns the empty
image; entry 0 is never read. -/
theorem nextImage_skips_first :
    ∃ r, Settings.validate twoImagesEnv { sampleSettings with input := "list.xml" } = .ok r ∧
      r.inputType = .IMAGE_LIST ∧ r.inputCaptureOpened = false ∧ r.skip = 1 ∧
      r.atImageList = 0 ∧ r.imageList = ["a.png", "b.png"] ∧
      nextImages 3 r = [.imread 1 (some "b.png"), .imread 2 none, .empty] :=
  ⟨_, rfl, by decide, by decide, by decide, by decide, by decide, by decide⟩

/-- C7 fails on a list of one image with `skip = 1`: the record is validated with a good
input, and the first call of `nextImage` subscripts the list at 1, its size. -/
theorem nextImage_out_of_range :
    ∃ r, Settings.validate oneImageEnv { sampleSettings with input := "list.xml" } = .ok r ∧
      r.goodInput = true ∧ r.inputType = .IMAGE_LIST ∧ r.inputCaptureOpened = false ∧
      r.atImageList = 0 ∧ r.imageList.length = 1 ∧
      (Settings.nextImage r).2 = .imread 1 none :=
  ⟨_, rfl, by decide, by decide, by decide, by decide, by decide, by decide⟩

/-! ## Command line -/

/-- C8: `parseConfiguration` returns a configuration exactly when parsing succeeded with
it, `input_path` was given at least once and `help` was not given; in every other case
the process exits with `EXIT_FAILURE`; a returned configuration has `input_path`. -/
theorem parseConfiguration_returns_iff (parsed : Except OptionException ParseResult) :
    (∀ config, parseConfiguration parsed = .returned config ↔
      parsed = .ok config ∧ 1 ≤ config.count "input_path" ∧ config.count "help" = 0) ∧
    ((¬ ∃ config, parsed = .ok config ∧ 1 ≤ config.count "input_path" ∧
        config.count "help" = 0) ↔
      parseConfiguration parsed = .exited EXIT_FAILURE) ∧
    (∀ config, parseConfiguration parsed = .returned config →
      1 ≤ config.count "input_path") := by
  have key : ∀ config, parseConfiguration parsed = .returned config ↔
      parsed = .ok config ∧ 1 ≤ config.count "input_path" ∧ config.count "help" = 0 := by
    intro config
    unfold parseConfiguration
    split
    next c =>
      by_cases h1 : c.count "input_path" = 0
      · simp only [h1, true_or, if_true]
        constructor
        · intro h
          cases h
        · rintro ⟨h, h2, -⟩
          injection h with h
          subst h
          omega
      by_cases h2 : c.count "help" = 0
      · simp only [h1, h2, ne_eq, not_true_eq_false, or_self, if_false,
          Outcome.returned.injEq, Except.ok.injEq]
        constructor
        · intro h; subst h; exact ⟨rfl, by omega, h2⟩
        · intro h; exact h.1
      · simp only [h1, h2, ne_eq, not_false_eq_true, or_true, if_true]
        constructor
        · intro h
          cases h
        · rintro ⟨h, -, h3⟩
          injection h with h
          subst h
          exact absurd h3 h2
    next e => simp
  refine ⟨key, ?_, fun config h => ((key config).1 h).2.1⟩
  constructor
  · intro hn
    unfold parseConfiguration
    split
    next c =>
      by_cases h1 : c.count "input_path" = 0
      · simp [h1]
      by_cases h2 : c.count "help" = 0
      · exact absurd ⟨c, rfl, by omega, h2⟩ hn
      · simp [h2]
    next e => rfl
  · rintro h ⟨config, hc⟩
    rw [(key config).2 hc] at h
    cases h


/-! ## Calibration flag -/

/-- The pinhole flag as a function of the eight options. -/
theorem pinholeFlag_spec (pp zt ar k1 k2 k3 k4 k5 : Bool) (flag : Nat)
    (hflag : flag =
      (if pp then CALIB_FIX_PRINCIPAL_POINT else 0) |||
      (if zt then CALIB_ZERO_TANGENT_DIST else 0) |||
      (if ar then CALIB_FIX_ASPECT_RATIO else 0) |||
      (if k1 then CALIB_FIX_K1 else 0) ||| (if k2 then CALIB_FIX_K2 else 0) |||
      (if k3 then CALIB_FIX_K3 else 0) ||| (if k4 then CALIB_FIX_K4 else 0) |||
      (if k5 then CALIB_FIX_K5 else 0)) :
    (flag &&& CALIB_FIX_PRINCIPAL_POINT ≠ 0 ↔ pp = true) ∧
    (flag &&& CALIB_ZERO_TANGENT_DIST ≠ 0 ↔ zt = true) ∧
    (flag &&& CALIB_FIX_ASPECT_RATIO ≠ 0 ↔ ar = true) ∧
    (flag &&& CALIB_FIX_K1 ≠ 0 ↔ k1 = true) ∧ (flag &&& CALIB_FIX_K2 ≠ 0 ↔ k2 = true) ∧
    (flag &&& CALIB_FIX_K3 ≠ 0 ↔ k3 = true) ∧ (flag &&& CALIB_FIX_K4 ≠ 0 ↔ k4 = true) ∧
    (flag &&& CALIB_FIX_K5 ≠ 0 ↔ k5 = true) ∧
    flag &&& (CALIB_FIX_PRINCIPAL_POINT ||| CALIB_ZERO_TANGENT_DIST |||
      CALIB_FIX_ASPECT_RATIO ||| CALIB_FIX_K1 ||| CALIB_FIX_K2 ||| CALIB_FIX_K3 |||
      CALIB_FIX_K4 ||| CALIB_FIX_K5) = flag ∧
    (flag = 0 ↔ pp = false ∧ zt = false ∧ ar = false ∧ k1 = false ∧ k2 = false ∧
      k3 = false ∧ k4 = false ∧ k5 = false) := by
  subst hflag
  cases pp <;> cases zt <;> cases ar <;> cases k1 <;> cases k2 <;> cases k3 <;>
    cases k4 <;> cases k5 <;> decide

theorem computeFlag_pinhole (s : Settings) (hf : s.useFisheye = false) :
    Settings.computeFlag s =
      (if s.calibFixPrincipalPoint then CALIB_FIX_PRINCIPAL_POINT else 0) |||
      (if s.calibZeroTangentDist then CALIB_ZERO_TANGENT_DIST else 0) |||
      (if s.aspectRatio.toBool then CALIB_FIX_ASPECT_RATIO else 0) |||
      (if s.fixK1 then CALIB_FIX_K1 else 0) ||| (if s.fixK2 then CALIB_FIX_K2 else 0) |||
      (if s.fixK3 then CALIB_FIX_K3 else 0) ||| (if s.fixK4 then CALIB_FIX_K4 else 0) |||
      (if s.fixK5 then CALIB_FIX_K5 else 0) := by
  unfold Settings.computeFlag
  simp only [hf, Bool.false_eq_true, if_false]
  generalize s.calibFixPrincipalPoint = pp
  generalize s.calibZeroTangentDist = zt
  generalize s.aspectRatio.toBool = ar
  generalize s.fixK1 = k1
  generalize s.fixK2 = k2
  generalize s.fixK3 = k3
  generalize s.fixK4 = k4
  generalize s.fixK5 = k5
  cases pp <;> cases zt <;> cases ar <;> cases k1 <;> cases k2 <;> cases k3 <;>
    cases k4 <;> cases k5 <;> rfl


theorem toBool_eq_decide (x : FloatVal) : x.toBool = decide (x ≠ .finite 0) := by
  cases x <;> simp [FloatVal.toBool]

/-- C9: for a record without the fisheye model on which `validate` returns normally, the
flag is the bitwise OR of the OpenCV constants whose option is set (fix principal point,
zero tangential distortion, fixed aspect ratio when `aspectRatio` is non-zero, and
`fixK1` to `fixK5`); each of these bits is set exactly when its option is, no other bit
is set, and the flag is zero exactly when no option is set. -/
theorem validate_flag_pinhole (env : Env) (s r : Settings)
    (h : Settings.validate env s = .ok r) (hf : s.useFisheye = false) :
    r.flag =
      ((if s.calibFixPrincipalPoint then CALIB_FIX_PRINCIPAL_POINT else 0) |||
      (if s.calibZeroTangentDist then CALIB_ZERO_TANGENT_DIST else 0) |||
      (if s.aspectRatio ≠ .finite 0 then CALIB_FIX_ASPECT_RATIO else 0) |||
      (if s.fixK1 then CALIB_FIX_K1 else 0) ||| (if s.fixK2 then CALIB_FIX_K2 else 0) |||
      (if s.fixK3 then CALIB_FIX_K3 else 0) ||| (if s.fixK4 then CALIB_FIX_K4 else 0) |||
      (if s.fixK5 then CALIB_FIX_K5 else 0)) ∧
    (r.flag &&& CALIB_FIX_PRINCIPAL_POINT ≠ 0 ↔ s.calibFixPrincipalPoint = true) ∧
    (r.flag &&& CALIB_ZERO_TANGENT_DIST ≠ 0 ↔ s.calibZeroTangentDist = true) ∧
    (r.flag &&& CALIB_FIX_ASPECT_RATIO ≠ 0 ↔ s.aspectRatio ≠ .finite 0) ∧
    (r.flag &&& CALIB_FIX_K1 ≠ 0 ↔ s.fixK1 = true) ∧
    (r.flag &&& CALIB_FIX_K2 ≠ 0 ↔ s.fixK2 = true) ∧
    (r.flag &&& CALIB_FIX_K3 ≠ 0 ↔ s.fixK3 = true) ∧
    (r.flag &&& CALIB_FIX_K4 ≠ 0 ↔ s.fixK4 = true) ∧
    (r.flag &&& CALIB_FIX_K5 ≠ 0 ↔ s.fixK5 = true) ∧
    r.flag &&& (CALIB_FIX_PRINCIPAL_POINT ||| CALIB_ZERO_TANGENT_DIST |||
      CALIB_FIX_ASPECT_RATIO ||| CALIB_FIX_K1 ||| CALIB_FIX_K2 ||| CALIB_FIX_K3 |||
      CALIB_FIX_K4 ||| CALIB_FIX_K5) = r.flag ∧
    (r.flag = 0 ↔ s.calibFixPrincipalPoint = false ∧ s.calibZeroTangentDist = false ∧
      s.aspectRatio = .finite 0 ∧ s.fixK1 = false ∧ s.fixK2 = false ∧ s.fixK3 = false ∧
      s.fixK4 = false ∧ s.fixK5 = false) := by
  have hflag := computeFlag_pinhole s hf
  rw [← computeFlag_of_ok h] at hflag
  have key := pinholeFlag_spec _ _ _ _ _ _ _ _ r.flag hflag
  rw [toBool_eq_decide] at hflag key
  simp only [decide_eq_true_eq, decide_eq_false_iff_not, ne_eq, not_not] at hflag key
  exact ⟨by simpa only [ne_eq] using hflag, by simpa only [ne_eq] using key⟩

/-- Witness of C9: the sample settings, which fix the principal point, assume zero
tangential distortion, fix the aspect ratio and fix `K4` and `K5`. -/
theorem validate_flag_pinhole_witness :
    Settings.validate sampleEnv sampleSettings =
        .ok (Settings.validateRest sampleEnv { sampleSettings with goodInput := true }) ∧
      (Settings.validateRest sampleEnv { sampleSettings with goodInput := true }).flag =
        6158 :=
  ⟨rfl, (validate_flag_pinhole sampleEnv sampleSettings _ rfl rfl).1.trans (by decide)⟩

/-- C10 fails with the fisheye model and `aspectRatio = 0`: validation succeeds, the test
`flag & CALIB_FIX_ASPECT_RATIO` holds all the same (the fisheye flag has the bit of
`fisheye::CALIB_RECOMPUTE_EXTRINSIC`, which is the same bit), so the camera matrix starts
with entry `(0,0)` equal to `0` and `fix_aspect_ratio` is written. -/
theorem fisheye_fixAspectRatioTest :
    ∃ r, Settings.validate sampleEnv
        { sampleSettings with useFisheye := true, aspectRatio := .finite 0 } = .ok r ∧
      r.aspectRatio = .finite 0 ∧ fixAspectRatioTest r = true ∧
      initialFocalEntry r = .finite 0 ∧ writesFixAspectRatio r = true :=
  ⟨_, rfl, by decide, by decide, by decide, by decide⟩

/-! ## File names of image lists -/

theorem find_append_self (needle front : List Char) : find (front ++ needle) needle ≠ none := by
  induction front with
  | nil =>
    cases needle with
    | nil => simp [find]
    | cons c cs => simp [find]
  | cons a front ih =>
    simp only [List.cons_append, find]
    split
    · simp
    · intro h
      exact ih (Option.map_eq_none'.1 h)

theorem find_of_isSuffixOf (needle hay : List Char) (h : needle.isSuffixOf hay = true) :
    find hay needle ≠ none := by
  obtain ⟨front, rfl⟩ := List.isSuffixOf_iff_suffix.1 h
  exact find_append_self needle front

/-- The half of C12 that holds: a file name that ends with `.xml`, `.yaml` or `.yml` is
taken for a list of images. -/
theorem isListOfImages_of_hasListExtension (filename : String)
    (h : hasListExtension filename = true) : Settings.isListOfImages filename = true := by
  unfold hasListExtension at h
  simp only [Bool.or_eq_true] at h
  unfold Settings.isListOfImages
  simp only
  split
  next hn =>
    obtain ⟨h1, h2, h3⟩ := hn
    rcases h with (h | h) | h
    · exact absurd h1 (find_of_isSuffixOf _ _ h)
    · exact absurd h2 (find_of_isSuffixOf _ _ h)
    · exact absurd h3 (find_of_isSuffixOf _ _ h)
  next => rfl

/-- C12 fails on the video file `clip.xml.avi`: its name does not end with `.xml`, `.yaml`
or `.yml` (it ends with `.avi`), but `.xml` occurs in it, at position 4, and
`isListOfImages` answers true. -/
theorem isListOfImages_inner_extension :
    Settings.isListOfImages "clip.xml.avi" = true ∧
      hasListExtension "clip.xml.avi" = false ∧
      ".avi".data.isSuffixOf "clip.xml.avi".data = true ∧
      find "clip.xml.avi".data ".xml".data = some 4 := by
  decide

/-! ## Board corners -/

theorem forLoop_push {α : Type} (n : Int) (g : Int → α) (c : List α) :
    forLoop n (fun j c => c ++ [g j]) c = c ++ (List.range n.toNat).map (fun (j : Nat) => g (j : Int)) := by
  unfold forLoop
  generalize n.toNat = m
  induction m with
  | zero => simp
  | succ m ih =>
    rw [List.range_succ, List.foldl_append, ih]
    simp

/-- The rows pushed by the two nested loops: `m` rows of `w` points, the point of row `i`
and column `j` at index `i * w + j`. -/
theorem rows_spec {α : Type} (w : Int) (g : Int → Int → α) (m : Nat) :
    ((List.range m).foldl
        (fun st (i : Nat) => forLoop w (fun j c => c ++ [g (i : Int) j]) st) []).length
      = m * w.toNat ∧
    ∀ i j : Nat, i < m → j < w.toNat →
      ((List.range m).foldl
        (fun st (i : Nat) => forLoop w (fun j c => c ++ [g (i : Int) j]) st) [])[i * w.toNat + j]?
        = some (g (i : Int) (j : Int)) := by
  induction m with
  | zero => simp
  | succ m ih =>
    obtain ⟨hlen, hget⟩ := ih
    rw [List.range_succ, List.foldl_append]
    simp only [List.foldl_cons, List.foldl_nil]
    rw [forLoop_push]
    refine ⟨?_, fun i j hi hj => ?_⟩
    · rw [List.length_append, hlen, List.length_map, List.length_range, Nat.succ_mul]
    · rcases Nat.lt_succ_iff_lt_or_eq.1 hi with hlt | heq
      · have hb : (i + 1) * w.toNat ≤ m * w.toNat := Nat.mul_le_mul_right _ hlt
        rw [Nat.succ_mul] at hb
        rw [List.getElem?_append_left (by rw [hlen]; omega)]
        exact hget i j hlt hj
      · subst heq
        rw [List.getElem?_append_right (by rw [hlen]; omega), hlen]
        simp [hj]

/-- The two nested loops of `calcBoardCornerPositions` with the point `g i j` pushed in row
`i` and column `j`: `width * height` points, row-major. -/
theorem grid_spec {α : Type} (w h : Int) (g : Int → Int → α) (hw : 0 ≤ w) (hh : 0 ≤ h) :
    (forLoop h (fun i c => forLoop w (fun j c => c ++ [g i j]) c) []).length
      = (w * h).toNat ∧
    ∀ i j : Int, 0 ≤ i → i < h → 0 ≤ j → j < w →
      (forLoop h (fun i c => forLoop w (fun j c => c ++ [g i j]) c) [])[(i * w + j).toNat]?
        = some (g i j) := by
  obtain ⟨W, rfl⟩ := Int.eq_ofNat_of_zero_le hw
  obtain ⟨H, rfl⟩ := Int.eq_ofNat_of_zero_le hh
  obtain ⟨hlen, hget⟩ := rows_spec (W : Int) g H
  simp only [Int.toNat_ofNat] at hlen hget
  refine ⟨?_, fun i j hi hih hj hjw => ?_⟩
  · unfold forLoop at hlen ⊢
    rw [Int.toNat_ofNat, ← Int.ofNat_mul, Int.toNat_ofNat, Nat.mul_comm W H]
    exact hlen
  · obtain ⟨i, rfl⟩ := Int.eq_ofNat_of_zero_le hi
    obtain ⟨j, rfl⟩ := Int.eq_ofNat_of_zero_le hj
    have e : ((i : Int) * (W : Int) + (j : Int)).toNat = i * W + j := by
      rw [← Int.ofNat_mul, ← Int.ofNat_add, Int.toNat_ofNat]
    rw [e]
    unfold forLoop at hget ⊢
    rw [Int.toNat_ofNat]
    exact hget i j (by exact_mod_cast hih) (by exact_mod_cast hjw)

theorem wrapInt32_of_range (z : Int) (h1 : -2147483648 ≤ z) (h2 : z < 2147483648) :
    wrapInt32 z = z := by
  unfold wrapInt32
  omega

/-- C13: for the patterns `CHESSBOARD` and `CIRCLES_GRID`, a board of width and height at
least zero, every square size and every prior content of the vector, the output has
`width * height` points and the point at index `i * width + j` is
`(j * squareSize, i * squareSize, 0)`; for `NOT_EXISTING` the output is empty. -/
theorem calcBoardCornerPositions_grid {K : Type} [IntCast K] [Mul K] [Zero K]
    (boardSize : Size) (squareSize : K) (corners : List (Point3 K))
    (hw : 0 ≤ boardSize.width) (hh : 0 ≤ boardSize.height) :
    (∀ p : Pattern, p = .CHESSBOARD ∨ p = .CIRCLES_GRID →
      (calcBoardCornerPositions boardSize squareSize corners p).length
        = (boardSize.width * boardSize.height).toNat ∧
      ∀ i j : Int, 0 ≤ i → i < boardSize.height → 0 ≤ j → j < boardSize.width →
        (calcBoardCornerPositions boardSize squareSize corners p)[
            (i * boardSize.width + j).toNat]?
          = some ⟨(j : K) * squareSize, (i : K) * squareSize, 0⟩) ∧
    calcBoardCornerPositions boardSize squareSize corners .NOT_EXISTING = [] := by
  refine ⟨fun p hp => ?_, rfl⟩
  have key := grid_spec boardSize.width boardSize.height
    (fun i j => (⟨(j : K) * squareSize, (i : K) * squareSize, 0⟩ : Point3 K)) hw hh
  rcases hp with rfl | rfl <;> exact key

/-- Witness of C13: a chessboard of 3 by 2 squares of size 5 has 6 corners. -/
theorem calcBoardCornerPositions_grid_witness :
    (calcBoardCornerPositions ⟨3, 2⟩ (5 : ℚ) [⟨1, 1, 1⟩] .CHESSBOARD).length = 6 :=
  ((calcBoardCornerPositions_grid ⟨3, 2⟩ (5 : ℚ) [⟨1, 1, 1⟩] (by decide) (by decide)).1
    .CHESSBOARD (Or.inl rfl)).1

/-- C14, as amended: for the pattern `ASYMMETRIC_CIRCLES_GRID`, a board of width between
zero and `2^30` and of height at least zero, and every square size, the output has
`width * height` points and the point at index `i * width + j` is
`((2*j + i mod 2) * squareSize, i * squareSize, 0)`. -/
theorem calcBoardCornerPositions_asymmetric {K : Type} [IntCast K] [Mul K] [Zero K]
    (boardSize : Size) (squareSize : K) (corners : List (Point3 K))
    (hw : 0 ≤ boardSize.width) (hw2 : boardSize.width ≤ 1073741824)
    (hh : 0 ≤ boardSize.height) :
    (calcBoardCornerPositions boardSize squareSize corners .ASYMMETRIC_CIRCLES_GRID).length
      = (boardSize.width * boardSize.height).toNat ∧
    ∀ i j : Int, 0 ≤ i → i < boardSize.height → 0 ≤ j → j < boardSize.width →
      (calcBoardCornerPositions boardSize squareSize corners .ASYMMETRIC_CIRCLES_GRID)[
          (i * boardSize.width + j).toNat]?
        = some ⟨((2 * j + i % 2 : Int) : K) * squareSize, (i : K) * squareSize, 0⟩ := by
  have key := grid_spec boardSize.width boardSize.height
    (fun i j => (⟨((wrapInt32 (2 * j + i % 2) : Int) : K) * squareSize,
      (i : K) * squareSize, 0⟩ : Point3 K)) hw hh
  refine ⟨key.1, fun i j hi hih hj hjw => ?_⟩
  have := key.2 i j hi hih hj hjw
  beta_reduce at this
  rw [wrapInt32_of_range (2 * j + i % 2) (by omega) (by omega)] at this
  exact this

/-- Witness of C14: an asymmetric grid of 3 by 2 circles has 6 centres. -/
theorem calcBoardCornerPositions_asymmetric_witness :
    (calcBoardCornerPositions ⟨3, 2⟩ (5 : ℚ) [] .ASYMMETRIC_CIRCLES_GRID).length = 6 :=
  (calcBoardCornerPositions_asymmetric ⟨3, 2⟩ (5 : ℚ) [] (by decide) (by decide)
    (by decide)).1

/-- C14 as stated fails on a board of width `2^30 + 1` and height 1 with square size 1: in
the last column, `j = 2^30`, the `int` expression `2*j + i % 2` leaves the range of `int`
and the point stored has `x = -2147483648`, not `2147483648`. -/
theorem calcBoardCornerPositions_asymmetric_overflow :
    (calcBoardCornerPositions ⟨1073741825, 1⟩ (1 : ℚ) [] .ASYMMETRIC_CIRCLES_GRID)[
        ((0 : Int) * 1073741825 + 1073741824).toNat]?
      = some ⟨-2147483648, 0, 0⟩ ∧
    (⟨-2147483648, 0, 0⟩ : Point3 ℚ) ≠
      ⟨((2 * 1073741824 + 0 % 2 : Int) : ℚ) * 1, ((0 : Int) : ℚ) * 1, 0⟩ := by
  constructor
  · have key := (grid_spec (1073741825 : Int) 1
      (fun i j => (⟨((wrapInt32 (2 * j + i % 2) : Int) : ℚ) * 1,
        ((i : Int) : ℚ) * 1, 0⟩ : Point3 ℚ)) (by decide) (by decide)).2
      0 1073741824 (by decide) (by decide) (by decide) (by decide)
    beta_reduce at key
    have hwrap : wrapInt32 (2 * 1073741824 + 0 % 2) = -2147483648 := by decide
    rw [hwrap] at key
    simpa [calcBoardCornerPositions] using key
  · intro h
    injection h with hx
    norm_num at hx

theorem wrapInt32_inj (a b c : Int) (ha : 0 ≤ a) (ha2 : a < 2147483648) (hb : 0 ≤ b)
    (hb2 : b < 2147483648)
    (h : wrapInt32 (2 * a + c) = wrapInt32 (2 * b + c)) : a = b := by
  unfold wrapInt32 at h
  omega

/-- Distinct indices of a row-major grid hold distinct points when the point function is
injective on the rows and columns of the grid. -/
theorem grid_injective {α : Type} (w h : Int) (g : Int → Int → α) (hw : 0 < w) (hh : 0 < h)
    (hg : ∀ i j i2 j2 : Int, 0 ≤ i → i < h → 0 ≤ j → j < w → 0 ≤ i2 → i2 < h → 0 ≤ j2 →
      j2 < w → g i j = g i2 j2 → i = i2 ∧ j = j2)
    (a b : Nat)
    (ha : a < (forLoop h (fun i c => forLoop w (fun j c => c ++ [g i j]) c) []).length)
    (hb : b < (forLoop h (fun i c => forLoop w (fun j c => c ++ [g i j]) c) []).length)
    (hab : (forLoop h (fun i c => forLoop w (fun j c => c ++ [g i j]) c) [])[a]? =
      (forLoop h (fun i c => forLoop w (fun j c => c ++ [g i j]) c) [])[b]?) : a = b := by
  obtain ⟨hlen, hget⟩ := grid_spec w h g (le_of_lt hw) (le_of_lt hh)
  rw [hlen] at ha hb
  obtain ⟨W, rfl⟩ := Int.eq_ofNat_of_zero_le (le_of_lt hw)
  obtain ⟨H, rfl⟩ := Int.eq_ofNat_of_zero_le (le_of_lt hh)
  have hW : 0 < W := by exact_mod_cast hw
  rw [← Int.ofNat_mul, Int.toNat_ofNat] at ha hb
  have idx : ∀ n : Nat, n < W * H →
      (((n / W : Nat) : Int) * (W : Int) + ((n % W : Nat) : Int)).toNat = n ∧
      (0 : Int) ≤ ((n / W : Nat) : Int) ∧ ((n / W : Nat) : Int) < (H : Int) ∧
      (0 : Int) ≤ ((n % W : Nat) : Int) ∧ ((n % W : Nat) : Int) < (W : Int) := by
    intro n hn
    refine ⟨?_, Int.ofNat_nonneg _, ?_, Int.ofNat_nonneg _, ?_⟩
    · rw [← Int.ofNat_mul, ← Int.ofNat_add, Int.toNat_ofNat, Nat.mul_comm]
      exact Nat.div_add_mod n W
    · exact_mod_cast (Nat.div_lt_iff_lt_mul hW).2 (by rw [Nat.mul_comm] at hn; exact hn)
    · exact_mod_cast Nat.mod_lt n hW
  obtain ⟨ea, a1, a2, a3, a4⟩ := idx a ha
  obtain ⟨eb, b1, b2, b3, b4⟩ := idx b hb
  have ga := hget _ _ a1 a2 a3 a4
  have gb := hget _ _ b1 b2 b3 b4
  rw [ea] at ga
  rw [eb] at gb
  rw [ga, gb] at hab
  obtain ⟨e1, e2⟩ := hg _ _ _ _ a1 a2 a3 a4 b1 b2 b3 b4 (Option.some.inj hab)
  have e1n : a / W = b / W := by exact_mod_cast e1
  have e2n : a % W = b % W := by exact_mod_cast e2
  rw [← Nat.div_add_mod a W, ← Nat.div_add_mod b W, e1n, e2n]

/-- C15: for each of the three patterns, a board of positive width and height (the width
an `int`) and a positive square size in exact arithmetic, no two different indices of the
output of `calcBoardCornerPositions` hold the same point. -/
theorem calcBoardCornerPositions_distinct {K : Type} [LinearOrderedField K]
    (boardSize : Size) (squareSize : K) (corners : List (Point3 K)) (p : Pattern)
    (hp : p = .CHESSBOARD ∨ p = .CIRCLES_GRID ∨ p = .ASYMMETRIC_CIRCLES_GRID)
    (hw : 0 < boardSize.width) (hint : boardSize.width ≤ INT_MAX)
    (hh : 0 < boardSize.height) (hs : 0 < squareSize) (a b : Nat)
    (ha : a < (calcBoardCornerPositions boardSize squareSize corners p).length)
    (hb : b < (calcBoardCornerPositions boardSize squareSize corners p).length)
    (hab : (calcBoardCornerPositions boardSize squareSize corners p)[a]? =
      (calcBoardCornerPositions boardSize squareSize corners p)[b]?) : a = b := by
  have hne : squareSize ≠ 0 := ne_of_gt hs
  have cancel : ∀ u v : Int, (u : K) * squareSize = (v : K) * squareSize → u = v :=
    fun u v h => Int.cast_injective (mul_right_cancel₀ hne h)
  have chess := grid_injective boardSize.width boardSize.height
    (fun i j => (⟨(j : K) * squareSize, (i : K) * squareSize, 0⟩ : Point3 K)) hw hh
    (fun i j i2 j2 _ _ _ _ _ _ _ _ h => by
      injection h with hx hy _
      exact ⟨cancel _ _ hy, cancel _ _ hx⟩) a b
  have asym := grid_injective boardSize.width boardSize.height
    (fun i j => (⟨((wrapInt32 (2 * j + i % 2) : Int) : K) * squareSize,
      (i : K) * squareSize, 0⟩ : Point3 K)) hw hh
    (fun i j i2 j2 _ _ hj hjw _ _ hj2 hjw2 h => by
      injection h with hx hy _
      have hi := cancel _ _ hy
      subst hi
      have hx2 := cancel _ _ hx
      unfold INT_MAX at hint
      exact ⟨rfl, wrapInt32_inj j j2 (i % 2) hj (by omega) hj2 (by omega) hx2⟩) a b
  rcases hp with rfl | rfl | rfl
  · exact chess ha hb hab
  · exact chess ha hb hab
  · exact asym ha hb hab

/-- Witness of C15: in the corners of a chessboard of 3 by 2 squares of size 5, the indices
1 and 4 hold different points. -/
theorem calcBoardCornerPositions_distinct_witness :
    (calcBoardCornerPositions ⟨3, 2⟩ (5 : ℚ) [] .CHESSBOARD)[1]? ≠
      (calcBoardCornerPositions ⟨3, 2⟩ (5 : ℚ) [] .CHESSBOARD)[4]? :=
  fun h => absurd
    (calcBoardCornerPositions_distinct ⟨3, 2⟩ (5 : ℚ) [] .CHESSBOARD (Or.inl rfl)
      (by decide) (by decide) (by decide) (by decide) 1 4 (by decide) (by decide) h)
    (by decide)

/-! ## Reprojection errors -/

theorem length_resize {α : Type} (l : List α) (n : Nat) (d : α) :
    (resize l n d).length = n := by
  unfold resize
  rw [List.length_append, List.length_take, List.length_replicate]
  omega

/-- The loop of `computeReprojectionErrors`: it adds the squared errors and the numbers
of points of the views left, and overwrites one entry of `perViewErrors` per view. -/
theorem errorLoop_spec {K : Type} [Field K] (sqrt : K → K) (views : List (K × Nat)) :
    ∀ (i : Nat) (totalErr : K) (totalPoints : Nat) (done todo : List K),
      done.length = i → todo.length = views.length →
      errorLoop sqrt views i (totalErr, totalPoints, done ++ todo) =
        (totalErr + (views.map (fun v => v.1 * v.1)).sum,
          totalPoints + (views.map (fun v => v.2)).sum,
          done ++ views.map (fun v => sqrt (v.1 * v.1 / (v.2 : K)))) := by
  induction views with
  | nil =>
    intro i totalErr totalPoints done todo _ htodo
    have : todo = [] := List.length_eq_zero.1 htodo
    simp [errorLoop, this]
  | cons v rest ih =>
    intro i totalErr totalPoints done todo hdone htodo
    obtain ⟨err, n⟩ := v
    cases todo with
    | nil => simp at htodo
    | cons t todo =>
      have hset : (done ++ t :: todo).set i (sqrt (err * err / (n : K))) =
          (done ++ [sqrt (err * err / (n : K))]) ++ todo := by
        subst hdone
        simp [List.set_append]
      simp only [errorLoop]
      rw [hset, ih (i + 1) _ _ _ todo (by simp [hdone]) (by simpa using htodo)]
      simp [add_assoc, Nat.add_assoc]

theorem computeReprojectionErrors_eq {K : Type} [Field K] (sqrt : K → K)
    (views : List (K × Nat)) (perViewErrors : List K) :
    computeReprojectionErrors sqrt views perViewErrors =
      (sqrt ((views.map (fun v => v.1 * v.1)).sum /
          (((views.map (fun v => v.2)).sum : Nat) : K)),
        views.map (fun v => sqrt (v.1 * v.1 / (v.2 : K)))) := by
  unfold computeReprojectionErrors
  have h := errorLoop_spec sqrt views 0 0 0 [] (resize perViewErrors views.length 0) rfl
    (length_resize _ _ _)
  simp only [List.nil_append] at h
  rw [h]
  simp

theorem weighted_squares (views : List (ℝ × Nat)) (hpos : ∀ v ∈ views, 0 < v.2) :
    (List.zipWith (fun v e => (v.2 : ℝ) * e ^ 2) views
        (views.map (fun v => Real.sqrt (v.1 * v.1 / (v.2 : ℝ))))).sum =
      (views.map (fun v => v.1 * v.1)).sum := by
  induction views with
  | nil => simp
  | cons v rest ih =>
    have hv : (0 : ℝ) < (v.2 : ℝ) := by exact_mod_cast hpos v (List.mem_cons_self _ _)
    have hnn : 0 ≤ v.1 * v.1 / (v.2 : ℝ) := div_nonneg (mul_self_nonneg _) (le_of_lt hv)
    simp only [List.map_cons, List.zipWith_cons_cons, List.sum_cons]
    rw [ih (fun w hw => hpos w (List.mem_cons_of_mem _ hw)), Real.sq_sqrt hnn,
      mul_div_cancel₀ _ (ne_of_gt hv)]

theorem sum_squares_nonneg (views : List (ℝ × Nat)) :
    0 ≤ (views.map (fun v => v.1 * v.1)).sum :=
  List.sum_nonneg (by
    intro x hx
    obtain ⟨v, _, rfl⟩ := List.mem_map.1 hx
    exact mul_self_nonneg _)

theorem sum_points_pos (views : List (ℝ × Nat)) (hne : views ≠ [])
    (hpos : ∀ v ∈ views, 0 < v.2) : 0 < (views.map (fun v => v.2)).sum := by
  cases views with
  | nil => exact absurd rfl hne
  | cons v rest =>
    have := hpos v (List.mem_cons_self _ _)
    simp only [List.map_cons, List.sum_cons]
    omega

/-- C11: over the real numbers, with the L2 distance `err` of each view taken as given, for
a non-empty list of views with `n > 0` points each, `perViewErrors` has one entry per view,
`sqrt (err^2 / n)`; the value returned is `sqrt ((sum of err^2) / (sum of n))`; and its
square times the total number of points is the sum of `n * perViewErrors[i]^2`. -/
theorem computeReprojectionErrors_rms (views : List (ℝ × Nat)) (perViewErrors : List ℝ)
    (hne : views ≠ []) (hpos : ∀ v ∈ views, 0 < v.2) :
    (computeReprojectionErrors Real.sqrt views perViewErrors).2.length = views.length ∧
    (computeReprojectionErrors Real.sqrt views perViewErrors).2 =
      views.map (fun v => Real.sqrt (v.1 ^ 2 / (v.2 : ℝ))) ∧
    (computeReprojectionErrors Real.sqrt views perViewErrors).1 =
      Real.sqrt ((views.map (fun v => v.1 ^ 2)).sum /
        (((views.map (fun v => v.2)).sum : Nat) : ℝ)) ∧
    (computeReprojectionErrors Real.sqrt views perViewErrors).1 ^ 2 *
        (((views.map (fun v => v.2)).sum : Nat) : ℝ) =
      (List.zipWith (fun v e => (v.2 : ℝ) * e ^ 2) views
        (computeReprojectionErrors Real.sqrt views perViewErrors).2).sum := by
  rw [computeReprojectionErrors_eq]
  have hN : (0 : ℝ) < (((views.map (fun v => v.2)).sum : Nat) : ℝ) := by
    exact_mod_cast sum_points_pos views hne hpos
  refine ⟨by simp, by simp only [pow_two], by simp only [pow_two], ?_⟩
  simp only
  rw [weighted_squares views hpos,
    Real.sq_sqrt (div_nonneg (sum_squares_nonneg views) (le_of_lt hN)),
    div_mul_cancel₀ _ (ne_of_gt hN)]

/-- Witness of C11: one view of one point at distance 3. -/
theorem computeReprojectionErrors_rms_witness :
    (computeReprojectionErrors Real.sqrt [((3 : ℝ), 1)] []).2.length = 1 :=
  (computeReprojectionErrors_rms [((3 : ℝ), 1)] [] (by simp) (by simp)).1

end calibration
